import Mathlib

/-!
Verification of the Acre-Detector GPS field-measurement engine.

The definitions below are a shallow embedding of the tracking component in
`src/server/server.js` (the `DistanceCalculator` tracking component: GPS fix
filtering, polygon closing, perimeter and dual-mode area computation, result
aggregation) and of the unit conversions in `src/client/src/components/`
`DistanceCalculator.js` and the `/api/stats` endpoint.

Modelling conventions:
- JavaScript floating point numbers are modelled as real numbers `ℝ`.
- The external `proj4` library call inside `calculateAreaWithProjection` is
  modelled as a function parameter returning `Option (ℝ × ℝ)`; a thrown
  exception (the `catch` branch) is modelled as `none` for some vertex.
- `toFixed`/`parseFloat` decimal rendering of numeric fields is display-level
  and is abstracted away: numeric fields are carried as `ℝ`.
- React state cells (`coordinates`, `lastRecordedPoint.current`,
  `cumulativeDistance.current`, `currentDistance`, `skippedPointsCount`,
  `measurements`, `results`, `error`) become fields of `ComponentState`;
  the error message string is abstracted to the flag `errorShown`.
- `Date.now()` timestamps are taken as part of the incoming fix.
-/

namespace AcreDetector

/-- One recorded GPS point; mirrors the JS object
`{ lat, lng, timestamp, accuracy }` built in `recordGPSPoint`. -/
structure Coord where
  lat : ℝ
  lng : ℝ
  timestamp : ℝ
  accuracy : ℝ

/-- `degrees * (Math.PI / 180)`, the `toRadians` helper. -/
noncomputable def toRadians (degrees : ℝ) : ℝ := degrees * (Real.pi / 180)

/-- JavaScript `Math.atan2 y x`. -/
noncomputable def atan2 (y x : ℝ) : ℝ :=
  if 0 < x then Real.arctan (y / x)
  else if x < 0 then
    (if 0 ≤ y then Real.arctan (y / x) + Real.pi else Real.arctan (y / x) - Real.pi)
  else
    (if 0 < y then Real.pi / 2 else if y < 0 then -(Real.pi / 2) else 0)

/-- The intermediate value `a` of the haversine formula in `haversineDistance`. -/
noncomputable def havTerm (lat1 lng1 lat2 lng2 : ℝ) : ℝ :=
  Real.sin (toRadians (lat2 - lat1) / 2) * Real.sin (toRadians (lat2 - lat1) / 2) +
    Real.cos (toRadians lat1) * Real.cos (toRadians lat2) *
      (Real.sin (toRadians (lng2 - lng1) / 2) * Real.sin (toRadians (lng2 - lng1) / 2))

/-- `haversineDistance(lat1, lng1, lat2, lng2)`: `R * c` with `R = 6371000` and
`c = 2 * atan2(sqrt a, sqrt (1 - a))`. -/
noncomputable def haversineDistance (lat1 lng1 lat2 lng2 : ℝ) : ℝ :=
  6371000 * (2 * atan2 (Real.sqrt (havTerm lat1 lng1 lat2 lng2))
    (Real.sqrt (1 - havTerm lat1 lng1 lat2 lng2)))

/-- Configuration constant `MIN_DISTANCE_THRESHOLD = 2.5` (meters). -/
noncomputable def MIN_DISTANCE_THRESHOLD : ℝ := 2.5

/-- Configuration constant `ACCURACY_THRESHOLD = 10` (meters). -/
noncomputable def ACCURACY_THRESHOLD : ℝ := 10

/-- Configuration constant `POLYGON_CLOSURE_THRESHOLD = 5` (meters). -/
noncomputable def POLYGON_CLOSURE_THRESHOLD : ℝ := 5

/-- Configuration constant `MAX_COORDINATES = 10000`. -/
def MAX_COORDINATES : ℕ := 10000

/-- `createClosedPolygon(coords)`: if fewer than 3 points, return as is;
otherwise append a copy of the first point when the haversine gap between the
first and last point exceeds `POLYGON_CLOSURE_THRESHOLD`. -/
noncomputable def createClosedPolygon (coords : List Coord) : List Coord :=
  match coords with
  | [] => []
  | c :: cs =>
    if (c :: cs).length < 3 then c :: cs
    else if POLYGON_CLOSURE_THRESHOLD <
        haversineDistance c.lat c.lng (cs.getLastD c).lat (cs.getLastD c).lng then
      (c :: cs) ++ [c]
    else c :: cs

/-- The perimeter loop of `calculatePerimeter`: haversine distance summed over
each consecutive pair (indices `0 .. length-2`); fewer than 2 points give 0. -/
noncomputable def calculatePerimeter : List Coord → ℝ
  | a :: b :: rest =>
      haversineDistance a.lat a.lng b.lat b.lng + calculatePerimeter (b :: rest)
  | _ => 0

/-- The shoelace loop shared by both area routines: the signed sum of
`x_i * y_{i+1} - x_{i+1} * y_i` over indices `0 .. length-2`. -/
def shoelaceSum : List (ℝ × ℝ) → ℝ
  | p :: q :: rest => (p.1 * q.2 - q.1 * p.2) + shoelaceSum (q :: rest)
  | _ => 0

/-- `avgLat` in `calculateAreaWithShoelace` (also `centerLat` in
`calculateAreaWithProjection`): the mean latitude of the vertex list. -/
noncomputable def avgLat (cc : List Coord) : ℝ := (cc.map (·.lat)).sum / cc.length

/-- `metersPerDegreeLng = 111000 * cos(toRadians avgLat)`. -/
noncomputable def metersPerDegreeLng (cc : List Coord) : ℝ :=
  111000 * Real.cos (toRadians (avgLat cc))

/-- The flat-map projection of `calculateAreaWithShoelace`:
`{ x: lng * metersPerDegreeLng, y: lat * 111000 }` for every vertex. -/
noncomputable def meterCoords (cc : List Coord) : List (ℝ × ℝ) :=
  cc.map fun c => (c.lng * metersPerDegreeLng cc, c.lat * 111000)

/-- `calculateAreaWithShoelace`: absolute value of the shoelace sum over the
flat-projected vertices, halved. -/
noncomputable def calculateAreaWithShoelace (cc : List Coord) : ℝ :=
  |shoelaceSum (meterCoords cc)| / 2

/-- `Math.max(...)` over a list, seeded with the first element (the argument
lists in the source are nonempty). -/
noncomputable def listMax : List ℝ → ℝ
  | [] => 0
  | a :: as => as.foldl max a

/-- `Math.min(...)` over a list, seeded with the first element. -/
noncomputable def listMin : List ℝ → ℝ
  | [] => 0
  | a :: as => as.foldl min a

/-- `latRange = Math.max(...lats) - Math.min(...lats)` in `calculateArea`. -/
noncomputable def latRange (cc : List Coord) : ℝ :=
  listMax (cc.map (·.lat)) - listMin (cc.map (·.lat))

/-- `lngRange = Math.max(...lngs) - Math.min(...lngs)` in `calculateArea`. -/
noncomputable def lngRange (cc : List Coord) : ℝ :=
  listMax (cc.map (·.lng)) - listMin (cc.map (·.lng))

/-- `utmZone = Math.floor((centerLng + 180) / 6) + 1`. -/
noncomputable def utmZone (cc : List Coord) : ℤ :=
  ⌊((cc.map (·.lng)).sum / cc.length + 180) / 6⌋ + 1

/-- Hemisphere selection `centerLat >= 0 ? 'north' : 'south'`, as a flag. -/
noncomputable def utmNorth (cc : List Coord) : Bool :=
  if 0 ≤ avgLat cc then true else false

/-- Collects a list of optional values; `none` anywhere models the `proj4`
call throwing for that vertex. -/
def allSome {α : Type} : List (Option α) → Option (List α)
  | [] => some []
  | none :: _ => none
  | some a :: rest => (allSome rest).map (a :: ·)

/-- The `proj4`-projected vertex list of `calculateAreaWithProjection`: the
external projection applied to every vertex with the zone and hemisphere
derived from the centroid. -/
noncomputable def projectedList (proj : ℤ → Bool → ℝ → ℝ → Option (ℝ × ℝ))
    (cc : List Coord) : Option (List (ℝ × ℝ)) :=
  allSome (cc.map fun c => proj (utmZone cc) (utmNorth cc) c.lng c.lat)

/-- `calculateAreaWithProjection`: shoelace over the UTM-projected vertices;
the `catch` branch (any projection failure) falls back to
`calculateAreaWithShoelace`. The external `proj4` library is the `proj`
parameter. -/
noncomputable def calculateAreaWithProjection
    (proj : ℤ → Bool → ℝ → ℝ → Option (ℝ × ℝ)) (cc : List Coord) : ℝ :=
  match projectedList proj cc with
  | some utmCoordsList => |shoelaceSum utmCoordsList| / 2
  | none => calculateAreaWithShoelace cc

/-- `calculateArea`: 0 below 3 points; UTM projection when the latitude or
longitude range exceeds 0.01 degrees, flat shoelace otherwise. -/
noncomputable def calculateArea
    (proj : ℤ → Bool → ℝ → ℝ → Option (ℝ × ℝ)) (cc : List Coord) : ℝ :=
  if cc.length < 3 then 0
  else if 0.01 < latRange cc ∨ 0.01 < lngRange cc then
    calculateAreaWithProjection proj cc
  else calculateAreaWithShoelace cc

/-- The fields of the `newResult` object built in
`calculateResultsWithCoordinates` (decimal rendering abstracted). -/
structure MeasurementResult where
  distance : ℝ
  areaSquareMeters : ℝ
  acres : ℝ
  hectares : ℝ
  guntalu : ℝ
  measurementNumber : ℕ
  pointsRecorded : ℕ
  closedPolygonPoints : ℕ
  avgAccuracy : ℝ
  skippedPoints : ℕ

/-- The `averageResults` record built by `calculateAverageResults`. -/
structure AverageResult where
  areaSquareMeters : ℝ
  distance : ℝ
  acres : ℝ
  hectares : ℝ
  guntalu : ℝ
  measurementCount : ℕ

/-- The mutable state of one tracking component instance: recorded points,
last accepted point, live distance accumulator and its displayed mirror, skip
counter, measurement index, stored results list, current result and the
insufficient-points error flag. -/
structure ComponentState where
  coordinates : List Coord
  lastRecordedPoint : Option Coord
  cumulativeDistance : ℝ
  currentDistance : ℝ
  skippedPointsCount : ℕ
  currentMeasurement : ℕ
  measurements : List MeasurementResult
  results : Option MeasurementResult
  errorShown : Bool

/-- The state right after `startTracking` resets the session. -/
def initialComponentState : ComponentState :=
  { coordinates := []
    lastRecordedPoint := none
    cumulativeDistance := 0
    currentDistance := 0
    skippedPointsCount := 0
    currentMeasurement := 1
    measurements := []
    results := none
    errorShown := false }

/-- The `setCoordinates` update in `recordGPSPoint`: append, then keep only
the newest `MAX_COORDINATES` entries (`slice(-MAX_COORDINATES)`). -/
def pushLimited (cs : List Coord) (p : Coord) : List Coord :=
  if MAX_COORDINATES < (cs ++ [p]).length then
    (cs ++ [p]).drop ((cs ++ [p]).length - MAX_COORDINATES)
  else cs ++ [p]

/-- `recordGPSPoint(position)`: skip on poor accuracy; skip as jitter when too
close to the last accepted point; otherwise update the distance accumulator
(when a prior point exists), append the point and remember it. -/
noncomputable def recordGPSPoint (p : Coord) (st : ComponentState) : ComponentState :=
  if ACCURACY_THRESHOLD < p.accuracy then
    { st with skippedPointsCount := st.skippedPointsCount + 1 }
  else
    match st.lastRecordedPoint with
    | some lp =>
      if haversineDistance lp.lat lp.lng p.lat p.lng < MIN_DISTANCE_THRESHOLD then
        { st with skippedPointsCount := st.skippedPointsCount + 1 }
      else
        { st with
          coordinates := pushLimited st.coordinates p
          lastRecordedPoint := some p
          cumulativeDistance :=
            st.cumulativeDistance + haversineDistance lp.lat lp.lng p.lat p.lng
          currentDistance :=
            st.cumulativeDistance + haversineDistance lp.lat lp.lng p.lat p.lng }
    | none =>
      { st with
        coordinates := pushLimited st.coordinates p
        lastRecordedPoint := some p }

/-- `calculateResultsWithCoordinates(coords)`: close the polygon, compute
perimeter and area over it, derive the unit conversions and quality fields. -/
noncomputable def calculateResultsWithCoordinates
    (proj : ℤ → Bool → ℝ → ℝ → Option (ℝ × ℝ)) (coords : List Coord)
    (currentMeasurement skippedPointsCount : ℕ) : MeasurementResult :=
  { distance := calculatePerimeter (createClosedPolygon coords)
    areaSquareMeters := calculateArea proj (createClosedPolygon coords)
    acres := calculateArea proj (createClosedPolygon coords) / 4047
    hectares := calculateArea proj (createClosedPolygon coords) / 10000
    guntalu := calculateArea proj (createClosedPolygon coords) / 101.17
    measurementNumber := currentMeasurement
    pointsRecorded := coords.length
    closedPolygonPoints := (createClosedPolygon coords).length
    avgAccuracy :=
      if 0 < coords.length then (coords.map (·.accuracy)).sum / coords.length else 0
    skippedPoints := skippedPointsCount }

/-- `stopTracking()`: below 3 recorded points show the error and bail out;
otherwise build the result, publish it and append it to `measurements`. -/
noncomputable def stopTracking (proj : ℤ → Bool → ℝ → ℝ → Option (ℝ × ℝ))
    (st : ComponentState) : ComponentState :=
  if st.coordinates.length < 3 then { st with errorShown := true }
  else
    { st with
      results := some (calculateResultsWithCoordinates proj st.coordinates
        st.currentMeasurement st.skippedPointsCount)
      measurements := st.measurements ++
        [calculateResultsWithCoordinates proj st.coordinates
          st.currentMeasurement st.skippedPointsCount] }

/-- `discardCurrentMeasurement()`: clear the error and all per-session
recording state; stored measurements and the published result are untouched. -/
def discardCurrentMeasurement (st : ComponentState) : ComponentState :=
  { st with
    errorShown := false
    coordinates := []
    currentDistance := 0
    skippedPointsCount := 0
    lastRecordedPoint := none
    cumulativeDistance := 0 }

/-- `calculateAverageResults()`: `null` below two stored measurements;
otherwise the mean area and mean perimeter with every unit conversion
re-derived from the mean area. -/
noncomputable def calculateAverageResults (ms : List MeasurementResult) :
    Option AverageResult :=
  if ms.length < 2 then none
  else
    some
      { areaSquareMeters := (ms.map (·.areaSquareMeters)).sum / ms.length
        distance := (ms.map (·.distance)).sum / ms.length
        acres := (ms.map (·.areaSquareMeters)).sum / ms.length / 4047
        hectares := (ms.map (·.areaSquareMeters)).sum / ms.length / 10000
        guntalu := (ms.map (·.areaSquareMeters)).sum / ms.length / 101.17
        measurementCount := ms.length }

/-- `/api/stats`: `totalAreaInAcres = totalArea / 4047`. -/
noncomputable def statsTotalAreaInAcres (totalArea : ℝ) : ℝ := totalArea / 4047

/-- `/api/stats`: `totalAreaInHectares = totalArea / 10000`. -/
noncomputable def statsTotalAreaInHectares (totalArea : ℝ) : ℝ := totalArea / 10000

/-- Client `DistanceCalculator.js`: `acres = areaSqMeters / 4046.86`. -/
noncomputable def clientAcres (areaSqMeters : ℝ) : ℝ := areaSqMeters / 4046.86

/-- Client `DistanceCalculator.js`: `guntas = areaSqMeters / 101.17`. -/
noncomputable def clientGuntas (areaSqMeters : ℝ) : ℝ := areaSqMeters / 101.17

/-- Client `DistanceCalculator.js`: `cents = areaSqMeters / 40.4686`. -/
noncomputable def clientCents (areaSqMeters : ℝ) : ℝ := areaSqMeters / 40.4686

/-- The three FixFilter verdicts named by the specification. -/
inductive FixOutcome where
  | Accept
  | RejectLowAccuracy
  | RejectJitter
deriving DecidableEq

/-- The FixFilter contract as the specification words it (section 4.1):
accuracy check first, regardless of distance; then the jitter check against
the prior accepted point when one exists; otherwise accept. -/
noncomputable def fixFilterSpec (accuracyThresholdMeters minDistanceThresholdMeters : ℝ)
    (prior : Option Coord) (fix : Coord) : FixOutcome :=
  if accuracyThresholdMeters < fix.accuracy then .RejectLowAccuracy
  else
    match prior with
    | some lp =>
      if haversineDistance lp.lat lp.lng fix.lat fix.lng < minDistanceThresholdMeters
      then .RejectJitter
      else .Accept
    | none => .Accept

/-- A projection function that always fails; also used wherever the claim at
hand does not depend on the projection at all. -/
def projNone : ℤ → Bool → ℝ → ℝ → Option (ℝ × ℝ) := fun _ _ _ _ => none

/-- Witness point at the origin. -/
def wP0 : Coord := ⟨0, 0, 0, 0⟩

/-- Witness point away from the origin. -/
def wP1 : Coord := ⟨1, 1, 0, 0⟩

/-- A session state with only two recorded points. -/
def twoPointState : ComponentState :=
  { initialComponentState with coordinates := [wP0, wP1] }

/-- A session state whose coordinates list has reached `MAX_COORDINATES`
entries, with the point at the origin last accepted. -/
def capState : ComponentState :=
  { initialComponentState with
    coordinates := List.replicate MAX_COORDINATES ⟨0, 0, 0, 5⟩
    lastRecordedPoint := some ⟨0, 0, 0, 5⟩ }

/-- A high-accuracy fix at the north pole, far from the origin. -/
def pPole : Coord := ⟨90, 0, 0, 3⟩

/-- Large closed test polygon (0.02 degrees across, first point repeated). -/
def bigCC : List Coord := [⟨0, 0, 0, 5⟩, ⟨0.02, 0, 0, 5⟩, ⟨0, 0.02, 0, 5⟩, ⟨0, 0, 0, 5⟩]

/-- A projection that succeeds on every vertex and happens to return the same
planar coordinates the flat map assigns for `bigCC`. -/
noncomputable def projGoodC6 : ℤ → Bool → ℝ → ℝ → Option (ℝ × ℝ) :=
  fun _ _ ln la => some (ln * metersPerDegreeLng bigCC, la * 111000)

/-- Vertex A of the small rotation test polygon. -/
def pA : Coord := ⟨0, 0, 0, 5⟩

/-- Vertex B of the small rotation test polygon. -/
noncomputable def pB : Coord := ⟨9 / 1000, 0, 0, 5⟩

/-- Vertex C of the small rotation test polygon. -/
noncomputable def pC : Coord := ⟨0, 9 / 1000, 0, 5⟩

/-- Small closed polygon A-B-C-A (ranges below 0.01 degrees). -/
noncomputable def polyP : List Coord := [pA, pB, pC, pA]

/-- The same closed polygon with the start index cyclically rotated by one:
B-C-A-B. -/
noncomputable def polyProt : List Coord := [pB, pC, pA, pB]

end AcreDetector

namespace AcreDetector

lemma atan2_zero_one : atan2 0 1 = 0 := by
  unfold atan2
  rw [if_pos one_pos]
  simp [Real.arctan_zero]

lemma havTerm_self (la ln : ℝ) : havTerm la ln la ln = 0 := by
  unfold havTerm toRadians
  simp

/-- The haversine distance from a point to itself is zero. -/
lemma haversineDistance_self (la ln : ℝ) : haversineDistance la ln la ln = 0 := by
  unfold haversineDistance
  rw [havTerm_self]
  norm_num [atan2_zero_one]

/-- C2: for every ordered sequence of at least 3 recorded points,
`createClosedPolygon` appends a copy of the first point exactly when the
haversine distance between the first and last point exceeds the 5 m closure
threshold, returns the sequence unchanged otherwise, and in either case the
result's first and last coordinates are identical or within the closure
tolerance. -/
theorem C2_polygon_closer (c : Coord) (cs : List Coord) (h : 2 ≤ cs.length) :
    (POLYGON_CLOSURE_THRESHOLD <
        haversineDistance c.lat c.lng (cs.getLastD c).lat (cs.getLastD c).lng →
      createClosedPolygon (c :: cs) = (c :: cs) ++ [c]) ∧
    (haversineDistance c.lat c.lng (cs.getLastD c).lat (cs.getLastD c).lng ≤
        POLYGON_CLOSURE_THRESHOLD →
      createClosedPolygon (c :: cs) = c :: cs) ∧
    (createClosedPolygon (c :: cs)).head? = some c ∧
    (c = (createClosedPolygon (c :: cs)).getLastD c ∨
      haversineDistance c.lat c.lng ((createClosedPolygon (c :: cs)).getLastD c).lat
        ((createClosedPolygon (c :: cs)).getLastD c).lng ≤ POLYGON_CLOSURE_THRESHOLD) := by
  have hlen : ¬(c :: cs).length < 3 := by
    simp only [List.length_cons]
    omega
  by_cases hd : POLYGON_CLOSURE_THRESHOLD <
      haversineDistance c.lat c.lng (cs.getLastD c).lat (cs.getLastD c).lng
  · have he : createClosedPolygon (c :: cs) = (c :: cs) ++ [c] := by
      simp only [createClosedPolygon]
      rw [if_neg hlen, if_pos hd]
    refine ⟨fun _ => he, fun hle => absurd hd (not_lt.2 hle), ?_, ?_⟩
    · rw [he]
      simp
    · left
      rw [he, List.getLastD_concat]
  · have he : createClosedPolygon (c :: cs) = c :: cs := by
      simp only [createClosedPolygon]
      rw [if_neg hlen, if_neg hd]
    refine ⟨fun hgt => absurd hgt hd, fun _ => he, ?_, ?_⟩
    · rw [he]
      simp
    · right
      rw [he, List.getLastD_cons]
      exact not_lt.1 hd

/-- Witness for C2 at a concrete three-point sequence whose endpoints
coincide. -/
theorem C2_polygon_closer_witness :
    createClosedPolygon [wP0, wP1, wP0] = [wP0, wP1, wP0] ∧
    (createClosedPolygon [wP0, wP1, wP0]).head? = some wP0 := by
  have h := C2_polygon_closer wP0 [wP1, wP0] (by norm_num)
  refine ⟨h.2.1 ?_, h.2.2.1⟩
  have hg : ([wP1, wP0] : List Coord).getLastD wP0 = wP0 := rfl
  rw [hg, haversineDistance_self]
  norm_num [POLYGON_CLOSURE_THRESHOLD]

/-- C3: `recordGPSPoint` implements the FixFilter contract: a fix with
accuracy above the threshold is rejected without appending a point regardless
of distance; otherwise a fix closer than the jitter threshold to the prior
accepted point is rejected; otherwise it is accepted (appended and remembered);
a first fix is accepted exactly when it passes the accuracy check. -/
theorem C3_fix_filter :
    (∀ (p : Coord) (st : ComponentState),
      (recordGPSPoint p st).coordinates =
        (if fixFilterSpec ACCURACY_THRESHOLD MIN_DISTANCE_THRESHOLD
            st.lastRecordedPoint p = FixOutcome.Accept
         then pushLimited st.coordinates p else st.coordinates) ∧
      (recordGPSPoint p st).lastRecordedPoint =
        (if fixFilterSpec ACCURACY_THRESHOLD MIN_DISTANCE_THRESHOLD
            st.lastRecordedPoint p = FixOutcome.Accept
         then some p else st.lastRecordedPoint) ∧
      (recordGPSPoint p st).skippedPointsCount =
        st.skippedPointsCount +
          (if fixFilterSpec ACCURACY_THRESHOLD MIN_DISTANCE_THRESHOLD
              st.lastRecordedPoint p = FixOutcome.Accept
           then 0 else 1)) ∧
    (∀ q : Coord,
      fixFilterSpec ACCURACY_THRESHOLD MIN_DISTANCE_THRESHOLD none q =
        if ACCURACY_THRESHOLD < q.accuracy then FixOutcome.RejectLowAccuracy
        else FixOutcome.Accept) := by
  constructor
  · intro p st
    by_cases hacc : ACCURACY_THRESHOLD < p.accuracy
    · simp [recordGPSPoint, fixFilterSpec, hacc]
    · cases hlast : st.lastRecordedPoint with
      | none => simp [recordGPSPoint, fixFilterSpec, hacc, hlast]
      | some lp =>
        by_cases hj :
            haversineDistance lp.lat lp.lng p.lat p.lng < MIN_DISTANCE_THRESHOLD
        · simp [recordGPSPoint, fixFilterSpec, hacc, hlast, hj]
        · simp [recordGPSPoint, fixFilterSpec, hacc, hlast, hj]
  · intro q
    by_cases hacc : ACCURACY_THRESHOLD < q.accuracy <;> simp [fixFilterSpec, hacc]

/-- C4: the reported perimeter is the sum of the haversine distances between
each consecutive pair of points of the closed polygon, over exactly N-1 edges
for N points. -/
theorem C4_perimeter (cc : List Coord) :
    calculatePerimeter cc =
      ((cc.zip cc.tail).map fun pq =>
        haversineDistance pq.1.lat pq.1.lng pq.2.lat pq.2.lng).sum ∧
    (cc.zip cc.tail).length = cc.length - 1 := by
  constructor
  · induction cc with
    | nil => simp [calculatePerimeter]
    | cons a rest ih =>
      cases rest with
      | nil => simp [calculatePerimeter]
      | cons b t =>
        simp only [List.tail_cons] at ih ⊢
        rw [calculatePerimeter, ih]
        simp [List.zip_cons_cons]
  · rw [List.length_zip, List.length_tail]
    omega

/-- C5: stopping a session with fewer than 3 recorded points produces no
MeasurementResult, appends nothing to the measurements list, and raises the
insufficient-points error; the explicit discard operation then clears the
session state while leaving the stored measurements untouched. -/
theorem C5_insufficient_points (proj : ℤ → Bool → ℝ → ℝ → Option (ℝ × ℝ))
    (st : ComponentState) (h : st.coordinates.length < 3) :
    (stopTracking proj st).measurements = st.measurements ∧
    (stopTracking proj st).results = st.results ∧
    (stopTracking proj st).errorShown = true ∧
    (discardCurrentMeasurement (stopTracking proj st)).coordinates = [] ∧
    (discardCurrentMeasurement (stopTracking proj st)).skippedPointsCount = 0 ∧
    (discardCurrentMeasurement (stopTracking proj st)).measurements =
      st.measurements := by
  unfold stopTracking
  rw [if_pos h]
  simp [discardCurrentMeasurement]

/-- Witness for C5 at a concrete two-point session. -/
theorem C5_insufficient_points_witness :
    (stopTracking projNone twoPointState).measurements =
      twoPointState.measurements ∧
    (stopTracking projNone twoPointState).results = twoPointState.results ∧
    (stopTracking projNone twoPointState).errorShown = true ∧
    (discardCurrentMeasurement (stopTracking projNone twoPointState)).coordinates =
      [] ∧
    (discardCurrentMeasurement
      (stopTracking projNone twoPointState)).skippedPointsCount = 0 ∧
    (discardCurrentMeasurement (stopTracking projNone twoPointState)).measurements =
      twoPointState.measurements :=
  C5_insufficient_points projNone twoPointState
    (by norm_num [twoPointState, initialComponentState])

/-- C7: `calculateAverageResults` returns `none` below two stored results and
otherwise the arithmetic mean of area and perimeter with every unit conversion
re-derived from the mean area together with the count used; over two results
with identical area it returns exactly that area with count 2. -/
theorem C7_compute_average :
    (∀ ms : List MeasurementResult,
      calculateAverageResults ms =
        if ms.length < 2 then none
        else some
          { areaSquareMeters := (ms.map (·.areaSquareMeters)).sum / ms.length
            distance := (ms.map (·.distance)).sum / ms.length
            acres := (ms.map (·.areaSquareMeters)).sum / ms.length / 4047
            hectares := (ms.map (·.areaSquareMeters)).sum / ms.length / 10000
            guntalu := (ms.map (·.areaSquareMeters)).sum / ms.length / 101.17
            measurementCount := ms.length }) ∧
    (∀ (a : ℝ) (r1 r2 : MeasurementResult),
      (calculateAverageResults
          [{ r1 with areaSquareMeters := a }, { r2 with areaSquareMeters := a }]).map
        (·.areaSquareMeters) = some a ∧
      (calculateAverageResults
          [{ r1 with areaSquareMeters := a }, { r2 with areaSquareMeters := a }]).map
        (·.measurementCount) = some 2) := by
  constructor
  · intro ms
    rfl
  · intro a r1 r2
    constructor
    · simp [calculateAverageResults]
    · simp [calculateAverageResults]

/-- C10 (amended): the tracking component's results and the server statistics
derive acres with 4047 m², hectares with 10000 m² and guntha with 101.17 m²,
while the standalone client converts acres with 4046.86 m², guntha with
101.17 m² and cent with 40.4686 m². -/
theorem C10_amended_unit_constants :
    (∀ (proj : ℤ → Bool → ℝ → ℝ → Option (ℝ × ℝ)) (coords : List Coord) (n sk : ℕ),
      (calculateResultsWithCoordinates proj coords n sk).acres =
        (calculateResultsWithCoordinates proj coords n sk).areaSquareMeters / 4047 ∧
      (calculateResultsWithCoordinates proj coords n sk).hectares =
        (calculateResultsWithCoordinates proj coords n sk).areaSquareMeters / 10000 ∧
      (calculateResultsWithCoordinates proj coords n sk).guntalu =
        (calculateResultsWithCoordinates proj coords n sk).areaSquareMeters /
          101.17) ∧
    (∀ a : ℝ,
      statsTotalAreaInAcres a = a / 4047 ∧ statsTotalAreaInHectares a = a / 10000) ∧
    (∀ a : ℝ,
      clientAcres a = a / 4046.86 ∧ clientGuntas a = a / 101.17 ∧
        clientCents a = a / 40.4686) := by
  refine ⟨fun proj coords n sk => ⟨rfl, rfl, rfl⟩, fun a => ⟨rfl, rfl⟩,
    fun a => ⟨rfl, rfl, rfl⟩⟩

/-- C10 counterexample: the claim that every exported conversion reports
acres as area / 4047 fails on the client component at area 4047 m², where the
reported value is 4047 / 4046.86 ≠ 1. -/
theorem C10_counterexample : clientAcres 4047 ≠ 4047 / 4047 := by
  unfold clientAcres
  norm_num

/-- C1: with at least 3 vertices, `calculateArea` uses the UTM projection
exactly when the latitude or longitude range exceeds 0.01 degrees, and
otherwise computes the flat-mode area: the absolute value of half the
shoelace sum over `x = lng * 111000 * cos(meanLatRadians)`,
`y = lat * 111000`. -/
theorem C1_area_mode_selection (proj : ℤ → Bool → ℝ → ℝ → Option (ℝ × ℝ))
    (cc : List Coord) (h : 3 ≤ cc.length) :
    ((0.01 < latRange cc ∨ 0.01 < lngRange cc) →
      calculateArea proj cc = calculateAreaWithProjection proj cc) ∧
    (¬(0.01 < latRange cc ∨ 0.01 < lngRange cc) →
      calculateArea proj cc =
        |shoelaceSum (cc.map fun v =>
          (v.lng * (111000 * Real.cos (toRadians ((cc.map (·.lat)).sum / cc.length))),
            v.lat * 111000))| / 2) := by
  have hlen : ¬cc.length < 3 := by omega
  constructor
  · intro hbig
    unfold calculateArea
    rw [if_neg hlen, if_pos hbig]
  · intro hsmall
    unfold calculateArea
    rw [if_neg hlen, if_neg hsmall]
    rfl

/-- Witness for C1 at a concrete degenerate three-point polygon in flat
mode. -/
theorem C1_area_mode_selection_witness :
    calculateArea projNone [wP0, wP0, wP0] =
      |shoelaceSum (([wP0, wP0, wP0] : List Coord).map fun v =>
        (v.lng * (111000 * Real.cos (toRadians
          ((([wP0, wP0, wP0] : List Coord).map (·.lat)).sum /
            ([wP0, wP0, wP0] : List Coord).length))),
          v.lat * 111000))| / 2 :=
  (C1_area_mode_selection projNone [wP0, wP0, wP0] (by norm_num)).2
    (by norm_num [latRange, lngRange, listMax, listMin, wP0, max_def, min_def])

lemma pushLimited_length (cs : List Coord) (p : Coord) :
    (pushLimited cs p).length = min (cs.length + 1) MAX_COORDINATES := by
  unfold pushLimited
  by_cases hc : MAX_COORDINATES < (cs ++ [p]).length
  · rw [if_pos hc]
    simp only [List.length_drop, List.length_append, List.length_singleton] at *
    omega
  · rw [if_neg hc]
    simp only [List.length_append, List.length_singleton] at *
    omega

/-- C9 (amended): every rejection increments the session skip counter by
exactly one and leaves the recorded points unchanged; every accepted fix
appends one point, with the coordinates list capped at `MAX_COORDINATES`
(oldest entries dropped beyond the cap); the reported `skippedPoints` and
`pointsRecorded` fields equal the session's skip counter and retained point
count; the two-fix example with accuracies 3 m and 12 m yields skip count 1
and one recorded point. -/
theorem C9_amended_skip_and_counts :
    (∀ (p : Coord) (st : ComponentState),
      (recordGPSPoint p st).skippedPointsCount = st.skippedPointsCount +
        (if fixFilterSpec ACCURACY_THRESHOLD MIN_DISTANCE_THRESHOLD
            st.lastRecordedPoint p = FixOutcome.Accept then 0 else 1)) ∧
    (∀ (p : Coord) (st : ComponentState),
      (recordGPSPoint p st).coordinates =
        (if fixFilterSpec ACCURACY_THRESHOLD MIN_DISTANCE_THRESHOLD
            st.lastRecordedPoint p = FixOutcome.Accept
         then pushLimited st.coordinates p else st.coordinates)) ∧
    (∀ (cs : List Coord) (p : Coord),
      (pushLimited cs p).length = min (cs.length + 1) MAX_COORDINATES) ∧
    (∀ (proj : ℤ → Bool → ℝ → ℝ → Option (ℝ × ℝ)) (coords : List Coord) (n sk : ℕ),
      (calculateResultsWithCoordinates proj coords n sk).pointsRecorded =
        coords.length ∧
      (calculateResultsWithCoordinates proj coords n sk).skippedPoints = sk) ∧
    (∀ la1 ln1 t1 la2 ln2 t2 : ℝ,
      (recordGPSPoint ⟨la2, ln2, t2, 12⟩
        (recordGPSPoint ⟨la1, ln1, t1, 3⟩ initialComponentState)).skippedPointsCount
        = 1 ∧
      (recordGPSPoint ⟨la2, ln2, t2, 12⟩
        (recordGPSPoint ⟨la1, ln1, t1, 3⟩ initialComponentState)).coordinates.length
        = 1) := by
  have hstep : ∀ (p : Coord) (st : ComponentState),
      (recordGPSPoint p st).skippedPointsCount = st.skippedPointsCount +
        (if fixFilterSpec ACCURACY_THRESHOLD MIN_DISTANCE_THRESHOLD
            st.lastRecordedPoint p = FixOutcome.Accept then 0 else 1) ∧
      (recordGPSPoint p st).coordinates =
        (if fixFilterSpec ACCURACY_THRESHOLD MIN_DISTANCE_THRESHOLD
            st.lastRecordedPoint p = FixOutcome.Accept
         then pushLimited st.coordinates p else st.coordinates) := by
    intro p st
    by_cases hacc : ACCURACY_THRESHOLD < p.accuracy
    · simp [recordGPSPoint, fixFilterSpec, hacc]
    · cases hlast : st.lastRecordedPoint with
      | none => simp [recordGPSPoint, fixFilterSpec, hacc, hlast]
      | some lp =>
        by_cases hj :
            haversineDistance lp.lat lp.lng p.lat p.lng < MIN_DISTANCE_THRESHOLD
        · simp [recordGPSPoint, fixFilterSpec, hacc, hlast, hj]
        · simp [recordGPSPoint, fixFilterSpec, hacc, hlast, hj]
  refine ⟨fun p st => (hstep p st).1, fun p st => (hstep p st).2, pushLimited_length,
    fun proj coords n sk => ⟨rfl, rfl⟩, ?_⟩
  intro la1 ln1 t1 la2 ln2 t2
  have h1 : recordGPSPoint ⟨la1, ln1, t1, 3⟩ initialComponentState =
      { initialComponentState with
        coordinates := [⟨la1, ln1, t1, 3⟩]
        lastRecordedPoint := some ⟨la1, ln1, t1, 3⟩ } := by
    unfold recordGPSPoint
    rw [if_neg (by norm_num [ACCURACY_THRESHOLD])]
    simp [initialComponentState, pushLimited, MAX_COORDINATES]
  rw [h1]
  unfold recordGPSPoint
  rw [if_pos (by norm_num [ACCURACY_THRESHOLD])]
  exact ⟨rfl, rfl⟩

lemma havTerm_pole : havTerm 0 0 90 0 = 1 / 2 := by
  unfold havTerm toRadians
  have e1 : Real.sin (((90:ℝ) - 0) * (Real.pi / 180) / 2) = Real.sqrt 2 / 2 := by
    rw [show ((90:ℝ) - 0) * (Real.pi / 180) / 2 = Real.pi / 4 by ring,
      Real.sin_pi_div_four]
  have e2 : Real.cos ((90:ℝ) * (Real.pi / 180)) = 0 := by
    rw [show (90:ℝ) * (Real.pi / 180) = Real.pi / 2 by ring, Real.cos_pi_div_two]
  rw [e1, e2]
  have e3 : Real.sqrt 2 / 2 * (Real.sqrt 2 / 2) = 1 / 2 := by
    rw [div_mul_div_comm, Real.mul_self_sqrt (by norm_num : (0:ℝ) ≤ 2)]
    norm_num
  rw [e3]
  ring

lemma haversineDistance_pole : haversineDistance 0 0 90 0 =
    6371000 * (2 * (Real.pi / 4)) := by
  unfold haversineDistance
  rw [havTerm_pole]
  rw [show (1:ℝ) - 1 / 2 = 1 / 2 by norm_num]
  have hpos : 0 < Real.sqrt (1 / 2) := Real.sqrt_pos.2 (by norm_num)
  unfold atan2
  rw [if_pos hpos, div_self (ne_of_gt hpos), Real.arctan_one]

/-- C9 counterexample: once the coordinates list has reached
`MAX_COORDINATES` entries, a further accepted fix (accuracy 3 m, far beyond
the jitter threshold, skip counter untouched) does not increase the retained
point count, so `pointsRecorded` no longer equals the number of accepted
points. -/
theorem C9_counterexample :
    capState.coordinates.length = MAX_COORDINATES ∧
    (recordGPSPoint pPole capState).skippedPointsCount =
      capState.skippedPointsCount ∧
    (recordGPSPoint pPole capState).lastRecordedPoint = some pPole ∧
    (recordGPSPoint pPole capState).coordinates.length = MAX_COORDINATES := by
  have hc : capState.coordinates.length = MAX_COORDINATES := by
    simp [capState, initialComponentState]
  have hacc : ¬ACCURACY_THRESHOLD < pPole.accuracy := by
    norm_num [ACCURACY_THRESHOLD, pPole]
  have hdist : ¬haversineDistance (0:ℝ) 0 pPole.lat pPole.lng <
      MIN_DISTANCE_THRESHOLD := by
    show ¬haversineDistance (0:ℝ) 0 90 0 < MIN_DISTANCE_THRESHOLD
    rw [haversineDistance_pole]
    unfold MIN_DISTANCE_THRESHOLD
    nlinarith [Real.pi_gt_three]
  have hlast : capState.lastRecordedPoint = some ⟨0, 0, 0, 5⟩ := rfl
  have hrec : recordGPSPoint pPole capState =
      { capState with
        coordinates := pushLimited capState.coordinates pPole
        lastRecordedPoint := some pPole
        cumulativeDistance := capState.cumulativeDistance +
          haversineDistance 0 0 pPole.lat pPole.lng
        currentDistance := capState.cumulativeDistance +
          haversineDistance 0 0 pPole.lat pPole.lng } := by
    unfold recordGPSPoint
    rw [if_neg hacc, hlast]
    dsimp only
    rw [if_neg hdist]
  refine ⟨hc, ?_, ?_, ?_⟩
  · rw [hrec]
  · rw [hrec]
  · have hco : (recordGPSPoint pPole capState).coordinates =
        pushLimited capState.coordinates pPole := by rw [hrec]
    rw [hco, pushLimited_length, hc]
    omega

lemma createClosedPolygon_of_first_eq_last (c : Coord) (cs : List Coord)
    (hl : cs.getLastD c = c) : createClosedPolygon (c :: cs) = c :: cs := by
  simp only [createClosedPolygon]
  by_cases h3 : (c :: cs).length < 3
  · rw [if_pos h3]
  · have hng : ¬POLYGON_CLOSURE_THRESHOLD <
        haversineDistance c.lat c.lng (cs.getLastD c).lat (cs.getLastD c).lng := by
      rw [hl, haversineDistance_self]
      norm_num [POLYGON_CLOSURE_THRESHOLD]
    rw [if_neg h3, if_neg hng]

lemma closed_bigCC : createClosedPolygon bigCC = bigCC :=
  createClosedPolygon_of_first_eq_last ⟨0, 0, 0, 5⟩
    [⟨0.02, 0, 0, 5⟩, ⟨0, 0.02, 0, 5⟩, ⟨0, 0, 0, 5⟩] rfl

/-- C6 (amended): when the UTM projection fails on the closed polygon,
`calculateArea` falls back to the flat shoelace computation without aborting,
and a MeasurementResult is still produced whose area field is that fallback
value; no field of the result marks the degraded precision. -/
theorem C6_amended_projection_fallback (proj : ℤ → Bool → ℝ → ℝ → Option (ℝ × ℝ))
    (cc : List Coord) (n sk : ℕ)
    (h : projectedList proj (createClosedPolygon cc) = none) :
    calculateArea proj (createClosedPolygon cc) =
      (if (createClosedPolygon cc).length < 3 then 0
       else calculateAreaWithShoelace (createClosedPolygon cc)) ∧
    (calculateResultsWithCoordinates proj cc n sk).areaSquareMeters =
      calculateArea proj (createClosedPolygon cc) := by
  constructor
  · unfold calculateArea
    by_cases h3 : (createClosedPolygon cc).length < 3
    · rw [if_pos h3, if_pos h3]
    · rw [if_neg h3, if_neg h3]
      by_cases hbig : 0.01 < latRange (createClosedPolygon cc) ∨
          0.01 < lngRange (createClosedPolygon cc)
      · rw [if_pos hbig]
        simp only [calculateAreaWithProjection, h]
      · rw [if_neg hbig]
  · rfl

/-- Witness for the amended C6 at the concrete large polygon with an
always-failing projection. -/
theorem C6_amended_projection_fallback_witness :
    calculateArea projNone (createClosedPolygon bigCC) =
      (if (createClosedPolygon bigCC).length < 3 then 0
       else calculateAreaWithShoelace (createClosedPolygon bigCC)) ∧
    (calculateResultsWithCoordinates projNone bigCC 1 0).areaSquareMeters =
      calculateArea projNone (createClosedPolygon bigCC) :=
  C6_amended_projection_fallback projNone bigCC 1 0 (by
    rw [closed_bigCC]
    simp [projectedList, projNone, bigCC, allSome])

/-- C6 counterexample: the produced MeasurementResult is not marked as
degraded-precision: on the concrete large polygon `bigCC`, a run whose
projection fails on every vertex produces a MeasurementResult identical to
that of a run whose projection succeeds on every vertex, so no field of the
result records the failure. -/
theorem C6_counterexample :
    projectedList projNone (createClosedPolygon bigCC) = none ∧
    (projectedList projGoodC6 (createClosedPolygon bigCC)).isSome = true ∧
    calculateResultsWithCoordinates projNone bigCC 1 0 =
      calculateResultsWithCoordinates projGoodC6 bigCC 1 0 := by
  have hfail : projectedList projNone (createClosedPolygon bigCC) = none := by
    rw [closed_bigCC]
    simp [projectedList, projNone, bigCC, allSome]
  have hgood : projectedList projGoodC6 (createClosedPolygon bigCC) =
      some (meterCoords bigCC) := by
    rw [closed_bigCC]
    simp [projectedList, projGoodC6, bigCC, allSome, meterCoords]
  have harea : calculateArea projNone (createClosedPolygon bigCC) =
      calculateArea projGoodC6 (createClosedPolygon bigCC) := by
    unfold calculateArea
    rw [closed_bigCC] at hfail hgood ⊢
    have h3 : ¬(bigCC.length < 3) := by norm_num [bigCC]
    have hbig : 0.01 < latRange bigCC ∨ 0.01 < lngRange bigCC := by
      left
      norm_num [latRange, listMax, listMin, bigCC, max_def, min_def]
    rw [if_neg h3, if_neg h3, if_pos hbig, if_pos hbig]
    unfold calculateAreaWithProjection
    rw [hfail, hgood]
    simp only [calculateAreaWithShoelace]
  refine ⟨hfail, by rw [hgood]; rfl, ?_⟩
  unfold calculateResultsWithCoordinates
  rw [harea]

lemma shoelaceSum_concat (l : List (ℝ × ℝ)) (y : ℝ × ℝ) :
    shoelaceSum (l ++ [y]) =
      shoelaceSum l + l.getLast?.elim 0 (fun z => z.1 * y.2 - y.1 * z.2) := by
  induction l with
  | nil => simp [shoelaceSum]
  | cons a l ih =>
    cases l with
    | nil => simp [shoelaceSum]
    | cons b t =>
      simp only [List.cons_append] at ih ⊢
      rw [shoelaceSum, shoelaceSum]
      rw [ih]
      rw [List.getLast?_cons_cons]
      ring

lemma shoelaceSum_reverse (l : List (ℝ × ℝ)) :
    shoelaceSum l.reverse = -shoelaceSum l := by
  induction l with
  | nil => simp [shoelaceSum]
  | cons a l ih =>
    cases hl : l with
    | nil => simp [shoelaceSum, hl]
    | cons b t =>
      subst hl
      rw [List.reverse_cons, shoelaceSum_concat, ih, List.getLast?_reverse]
      rw [List.head?_cons, shoelaceSum]
      simp only [Option.elim]
      ring

/-- C8 (amended): the computed flat-mode area is invariant under reversal of
the traversal direction: the sign of the shoelace sum flips and its absolute
value, hence the returned area, is unchanged. It is not invariant under
cyclic rotation of the vertex start index (see the counterexample). -/
theorem C8_amended_reversal_invariance :
    (∀ l : List (ℝ × ℝ), shoelaceSum l.reverse = -shoelaceSum l) ∧
    (∀ cc : List Coord,
      calculateAreaWithShoelace cc.reverse = calculateAreaWithShoelace cc) := by
  refine ⟨shoelaceSum_reverse, fun cc => ?_⟩
  unfold calculateAreaWithShoelace meterCoords metersPerDegreeLng avgLat
  simp only [List.map_reverse, List.sum_reverse, List.length_reverse]
  rw [shoelaceSum_reverse, abs_neg]

lemma avgLat_polyP : avgLat polyP = 9 / 4000 := by
  norm_num [avgLat, polyP, pA, pB, pC]

lemma avgLat_polyProt : avgLat polyProt = 9 / 2000 := by
  norm_num [avgLat, polyProt, pA, pB, pC]

lemma cos_toRadians_nonneg_small (x : ℝ) (h0 : 0 ≤ x) (h1 : x ≤ 90) :
    0 ≤ Real.cos (toRadians x) := by
  unfold toRadians
  apply Real.cos_nonneg_of_mem_Icc
  constructor
  · nlinarith [Real.pi_pos]
  · nlinarith [Real.pi_pos]

lemma area_polyP : calculateAreaWithShoelace polyP =
    8991 / 2000 * (111000 * Real.cos (toRadians (9 / 4000))) := by
  unfold calculateAreaWithShoelace meterCoords
  rw [show metersPerDegreeLng polyP = 111000 * Real.cos (toRadians (9 / 4000)) by
    unfold metersPerDegreeLng
    rw [avgLat_polyP]]
  have hK : 0 ≤ 111000 * Real.cos (toRadians (9 / 4000)) := by
    have := cos_toRadians_nonneg_small (9 / 4000) (by norm_num) (by norm_num)
    positivity
  simp only [polyP, pA, pB, pC, List.map_cons, List.map_nil, shoelaceSum]
  rw [abs_of_nonpos (by nlinarith)]
  ring

lemma area_polyProt : calculateAreaWithShoelace polyProt =
    8991 / 2000 * (111000 * Real.cos (toRadians (9 / 2000))) := by
  unfold calculateAreaWithShoelace meterCoords
  rw [show metersPerDegreeLng polyProt = 111000 * Real.cos (toRadians (9 / 2000)) by
    unfold metersPerDegreeLng
    rw [avgLat_polyProt]]
  have hK : 0 ≤ 111000 * Real.cos (toRadians (9 / 2000)) := by
    have := cos_toRadians_nonneg_small (9 / 2000) (by norm_num) (by norm_num)
    positivity
  simp only [polyProt, pA, pB, pC, List.map_cons, List.map_nil, shoelaceSum]
  rw [abs_of_nonpos (by nlinarith)]
  ring

/-- C8 counterexample: `polyP = [A, B, C, A]` is a genuinely closed polygon,
yet cyclically rotating its start index to `polyProt = [B, C, A, B]` changes
the computed area: the duplicated start vertex shifts the mean latitude used
for the flat scaling, so the two areas differ. -/
theorem C8_counterexample :
    createClosedPolygon polyP = polyP ∧
    calculateArea projNone polyP ≠ calculateArea projNone polyProt := by
  constructor
  · show createClosedPolygon (pA :: [pB, pC, pA]) = pA :: [pB, pC, pA]
    exact createClosedPolygon_of_first_eq_last pA [pB, pC, pA] rfl
  · have hsmallP : ¬(0.01 < latRange polyP ∨ 0.01 < lngRange polyP) := by
      norm_num [latRange, lngRange, listMax, listMin, polyP, pA, pB, pC,
        max_def, min_def]
    have hsmallQ : ¬(0.01 < latRange polyProt ∨ 0.01 < lngRange polyProt) := by
      norm_num [latRange, lngRange, listMax, listMin, polyProt, pA, pB, pC,
        max_def, min_def]
    have h1 : calculateArea projNone polyP = calculateAreaWithShoelace polyP := by
      unfold calculateArea
      rw [if_neg (by norm_num [polyP]), if_neg hsmallP]
    have h2 : calculateArea projNone polyProt =
        calculateAreaWithShoelace polyProt := by
      unfold calculateArea
      rw [if_neg (by norm_num [polyProt]), if_neg hsmallQ]
    rw [h1, h2, area_polyP, area_polyProt]
    intro heq
    have hlt : Real.cos (toRadians (9 / 2000)) < Real.cos (toRadians (9 / 4000)) := by
      apply Real.cos_lt_cos_of_nonneg_of_le_pi
      · unfold toRadians
        positivity
      · unfold toRadians
        nlinarith [Real.pi_pos]
      · unfold toRadians
        nlinarith [Real.pi_pos]
    nlinarith [hlt]

end AcreDetector
